import Mathlib

/-!
Shallow embedding of the failover decision core of the
`cloudflare-site-failover-worker` repository.

Timestamps are modelled as integer milliseconds (JS `Date` comparisons on
ISO strings agree with comparisons of their epoch values).  JS numeric
counters are modelled as `Int`.

Source files embedded here:
  * `src/durable-object.ts` (the `MonitorState` Durable Object; in this
    snapshot its text appears concatenated inside `src/rate-limiter.ts`)
  * `src/state-manager.ts`
  * `src/index.ts` (`handleScheduled`)
  * `src/cloudflare-api.ts` (`CloudflareAPIClient.updateRedirectRule`)
  * `src/openapi-routes.ts` (simulate-failover / simulate-recovery handlers)
-/

namespace Failover

/-- `MaintenanceWindow` from `src/types.ts`. -/
structure MaintenanceWindow where
  id : String
  startTime : Int
  endTime : Int
  reason : Option String
  deriving Repr, DecidableEq

/-- The `event` field of a history entry: `'enabled' | 'disabled'`. -/
inductive RuleEvent where
  | enabled
  | disabled
  deriving Repr, DecidableEq

/-- `RedirectRuleHistoryEntry` from `src/types.ts`. -/
structure RedirectRuleHistoryEntry where
  timestamp : Int
  event : RuleEvent
  reason : String
  failureCount : Int
  recoveryCount : Int
  deriving Repr, DecidableEq

/-- `MonitorStateData` from `src/types.ts`: the single persisted state. -/
structure MonitorStateData where
  failureCount : Int
  recoveryCount : Int
  lastCheckTime : Option Int
  redirectRuleEnabled : Bool
  maintenanceMode : Bool
  maintenanceModeReason : Option String
  scheduledMaintenanceWindows : List MaintenanceWindow
  redirectRuleHistory : List RedirectRuleHistoryEntry
  healthChecksTotal : Int
  successesTotal : Int
  failuresTotal : Int
  redirectRuleChangesTotal : Int
  apiErrorsTotal : Int
  lastCronExecution : Option Int
  workerStartTime : Int
  apiCallsDisabled : Bool
  deriving Repr, DecidableEq

/-- `ValidatedConfig` from `src/types.ts`. -/
structure ValidatedConfig where
  monitorUrl : String
  failureCountThreshold : Int
  recoveryCountThreshold : Int
  timeoutSeconds : Int
  redirectRuleId : String
  accountId : String
  zoneId : String
  cloudflareApiToken : String
  logLevel : String
  apiToken : String
  deriving Repr, DecidableEq

/-- The default state persisted on first access
(`MonitorState.getState`, durable-object source). -/
def defaultState (now : Int) : MonitorStateData :=
  { failureCount := 0
    recoveryCount := 0
    lastCheckTime := none
    redirectRuleEnabled := false
    maintenanceMode := false
    maintenanceModeReason := none
    scheduledMaintenanceWindows := []
    redirectRuleHistory := []
    healthChecksTotal := 0
    successesTotal := 0
    failuresTotal := 0
    redirectRuleChangesTotal := 0
    apiErrorsTotal := 0
    lastCronExecution := none
    workerStartTime := now
    apiCallsDisabled := false }

/-- `POST /increment-failure` in the Durable Object. -/
def incrementFailureOp (now : Int) (s : MonitorStateData) : MonitorStateData :=
  { s with
    failureCount := s.failureCount + 1
    recoveryCount := 0
    lastCheckTime := some now
    failuresTotal := s.failuresTotal + 1
    healthChecksTotal := s.healthChecksTotal + 1 }

/-- `POST /increment-recovery` in the Durable Object. -/
def incrementRecoveryOp (now : Int) (s : MonitorStateData) : MonitorStateData :=
  { s with
    recoveryCount := s.recoveryCount + 1
    failureCount := 0
    lastCheckTime := some now
    healthChecksTotal := s.healthChecksTotal + 1
    successesTotal := s.successesTotal + 1 }

/-- `POST /reset-counters` in the Durable Object.  Note: the handler zeroes
the consecutive counters AND every cumulative total. -/
def resetCountersOp (s : MonitorStateData) : MonitorStateData :=
  { s with
    failureCount := 0
    recoveryCount := 0
    healthChecksTotal := 0
    successesTotal := 0
    failuresTotal := 0
    redirectRuleChangesTotal := 0
    apiErrorsTotal := 0 }

/-- `POST /update-redirect-rule-state` in the Durable Object: set the rule
flag, bump the change total, prepend a history entry, cap history at 50. -/
def updateRedirectRuleStateOp (now : Int) (enabled : Bool) (reason : String)
    (s : MonitorStateData) : MonitorStateData :=
  let entry : RedirectRuleHistoryEntry :=
    { timestamp := now
      event := if enabled then RuleEvent.enabled else RuleEvent.disabled
      reason := reason
      failureCount := s.failureCount
      recoveryCount := s.recoveryCount }
  let history := entry :: s.redirectRuleHistory
  { s with
    redirectRuleEnabled := enabled
    redirectRuleChangesTotal := s.redirectRuleChangesTotal + 1
    redirectRuleHistory := if history.length > 50 then history.take 50 else history }

/-- `POST /set-maintenance-mode` in the Durable Object. -/
def setMaintenanceModeOp (enabled : Bool) (reason : Option String)
    (s : MonitorStateData) : MonitorStateData :=
  { s with maintenanceMode := enabled, maintenanceModeReason := reason }

/-- `POST /add-maintenance-window` in the Durable Object. -/
def addMaintenanceWindowOp (w : MaintenanceWindow) (s : MonitorStateData) :
    MonitorStateData :=
  { s with scheduledMaintenanceWindows := s.scheduledMaintenanceWindows ++ [w] }

/-- `DELETE /delete-maintenance-window/:id` in the Durable Object. -/
def deleteMaintenanceWindowOp (windowId : String) (s : MonitorStateData) :
    MonitorStateData :=
  { s with scheduledMaintenanceWindows :=
      s.scheduledMaintenanceWindows.filter (fun w => w.id ≠ windowId) }

/-- `POST /clean-maintenance-windows` in the Durable Object: keep windows
whose `endTime` is strictly in the future. -/
def cleanMaintenanceWindowsOp (now : Int) (s : MonitorStateData) :
    MonitorStateData :=
  { s with scheduledMaintenanceWindows :=
      s.scheduledMaintenanceWindows.filter (fun w => w.endTime > now) }

/-- `POST /increment-api-errors` in the Durable Object. -/
def incrementApiErrorsOp (s : MonitorStateData) : MonitorStateData :=
  { s with apiErrorsTotal := s.apiErrorsTotal + 1 }

/-- `POST /update-cron-execution` in the Durable Object. -/
def updateCronExecutionOp (now : Int) (s : MonitorStateData) : MonitorStateData :=
  { s with lastCronExecution := some now }

/-- `POST /disable-api-calls` in the Durable Object. -/
def disableApiCallsOp (s : MonitorStateData) : MonitorStateData :=
  { s with apiCallsDisabled := true }

/-- `POST /simulate-failover` in the Durable Object: force the failure
counter to the supplied threshold, zero the recovery counter. -/
def simulateFailoverOp (threshold : Int) (s : MonitorStateData) :
    MonitorStateData :=
  { s with failureCount := threshold, recoveryCount := 0 }

/-- `POST /simulate-recovery` in the Durable Object: force the recovery
counter to the supplied threshold, zero the failure counter. -/
def simulateRecoveryOp (threshold : Int) (s : MonitorStateData) :
    MonitorStateData :=
  { s with recoveryCount := threshold, failureCount := 0 }

/-- One mutating request understood by the Durable Object's `fetch`
dispatcher.  Parameters carry the values the handler reads from the
request body or URL. -/
inductive DOOp where
  | incrementFailure (now : Int)
  | incrementRecovery (now : Int)
  | resetCounters
  | updateRedirectRuleState (now : Int) (enabled : Bool) (reason : String)
  | setMaintenanceMode (enabled : Bool) (reason : Option String)
  | addMaintenanceWindow (w : MaintenanceWindow)
  | deleteMaintenanceWindow (windowId : String)
  | cleanMaintenanceWindows (now : Int)
  | incrementApiErrors
  | updateCronExecution (now : Int)
  | disableApiCalls
  | simulateFailover (threshold : Int)
  | simulateRecovery (threshold : Int)
  deriving Repr

/-- Effect of each Durable Object operation on the persisted state. -/
def applyOp : DOOp → MonitorStateData → MonitorStateData
  | DOOp.incrementFailure now, s => incrementFailureOp now s
  | DOOp.incrementRecovery now, s => incrementRecoveryOp now s
  | DOOp.resetCounters, s => resetCountersOp s
  | DOOp.updateRedirectRuleState now e r, s => updateRedirectRuleStateOp now e r s
  | DOOp.setMaintenanceMode e r, s => setMaintenanceModeOp e r s
  | DOOp.addMaintenanceWindow w, s => addMaintenanceWindowOp w s
  | DOOp.deleteMaintenanceWindow i, s => deleteMaintenanceWindowOp i s
  | DOOp.cleanMaintenanceWindows now, s => cleanMaintenanceWindowsOp now s
  | DOOp.incrementApiErrors, s => incrementApiErrorsOp s
  | DOOp.updateCronExecution now, s => updateCronExecutionOp now s
  | DOOp.disableApiCalls, s => disableApiCallsOp s
  | DOOp.simulateFailover t, s => simulateFailoverOp t s
  | DOOp.simulateRecovery t, s => simulateRecoveryOp t s

/-- States reachable from a fresh Durable Object through its operations. -/
inductive Reachable : MonitorStateData → Prop where
  | init (t0 : Int) : Reachable (defaultState t0)
  | step (op : DOOp) {s : MonitorStateData} :
      Reachable s → Reachable (applyOp op s)

/-- Request-body fields used by the Durable Object's `fetch` handlers (the
handlers cast `request.json()` without validation and read the fields they
need). -/
structure DOBody where
  enabled : Bool
  reason : Option String
  window : MaintenanceWindow
  threshold : Int
  deriving Repr

/-- Result of one Durable Object `fetch`: either the (post-mutation) state
serialized back to the caller, or the fall-through `404 Not Found`. -/
inductive DOResponse where
  | ok (s : MonitorStateData)
  | notFound
  deriving Repr, DecidableEq

/-- The path `StateManager.resetAllMetrics` posts to
(`src/state-manager.ts`, the fetch to `http://do/reset-all-metrics`). -/
def resetAllMetricsPath : String := "/reset-all-metrics"

/-- The route dispatch of `MonitorState.fetch` in the Durable Object,
branch for branch in source order; any unmatched request falls through to
`404 Not Found`. -/
def monitorStateFetch (method path : String) (body : DOBody) (now : Int)
    (s : MonitorStateData) : DOResponse :=
  if method = "GET" ∧ path = "/state" then DOResponse.ok s
  else if method = "POST" ∧ path = "/increment-failure" then
    DOResponse.ok (incrementFailureOp now s)
  else if method = "POST" ∧ path = "/increment-recovery" then
    DOResponse.ok (incrementRecoveryOp now s)
  else if method = "POST" ∧ path = "/reset-counters" then
    DOResponse.ok (resetCountersOp s)
  else if method = "POST" ∧ path = "/update-redirect-rule-state" then
    DOResponse.ok
      (updateRedirectRuleStateOp now body.enabled (body.reason.getD "") s)
  else if method = "POST" ∧ path = "/set-maintenance-mode" then
    DOResponse.ok (setMaintenanceModeOp body.enabled body.reason s)
  else if method = "POST" ∧ path = "/add-maintenance-window" then
    DOResponse.ok (addMaintenanceWindowOp body.window s)
  else if method = "DELETE" ∧ path.startsWith "/delete-maintenance-window/" then
    DOResponse.ok
      (deleteMaintenanceWindowOp ((path.splitOn "/").getLastD "") s)
  else if method = "POST" ∧ path = "/clean-maintenance-windows" then
    DOResponse.ok (cleanMaintenanceWindowsOp now s)
  else if method = "POST" ∧ path = "/increment-api-errors" then
    DOResponse.ok (incrementApiErrorsOp s)
  else if method = "POST" ∧ path = "/update-cron-execution" then
    DOResponse.ok (updateCronExecutionOp now s)
  else if method = "POST" ∧ path = "/disable-api-calls" then
    DOResponse.ok (disableApiCallsOp s)
  else if method = "POST" ∧ path = "/simulate-failover" then
    DOResponse.ok (simulateFailoverOp body.threshold s)
  else if method = "POST" ∧ path = "/simulate-recovery" then
    DOResponse.ok (simulateRecoveryOp body.threshold s)
  else DOResponse.notFound

/-- Outcome of one `CloudflareAPIClient.updateRedirectRule` call as its
callers observe it: `true`, `false`, or the thrown
`AUTHENTICATION_FAILED` error. -/
inductive UpdateResult where
  | success
  | failure
  | authFailed
  deriving Repr, DecidableEq

/-- Result of one scheduled Decision Engine cycle: the committed state and
the list of `updateRedirectRule` invocations it issued (recorded by the
requested `enabled` value). -/
structure CycleResult where
  state : MonitorStateData
  calls : List Bool
  deriving Repr, DecidableEq

/-- Active-window test of `handleScheduled` in `src/index.ts`:
`now >= startTime && now <= endTime` for some scheduled window. -/
def isInMaintenanceWindow (windows : List MaintenanceWindow) (now : Int) : Bool :=
  windows.any fun w => decide (w.startTime ≤ now) && decide (now ≤ w.endTime)

/-- `maintenanceModeActive` as computed by `handleScheduled`:
the explicit toggle or membership of `now` in a scheduled window. -/
def maintenanceActive (s : MonitorStateData) (now : Int) : Bool :=
  s.maintenanceMode || isInMaintenanceWindow s.scheduledMaintenanceWindows now

/-- One cron cycle of `handleScheduled` (`src/index.ts`), as a pure
function of the persisted state, the clock, the probe classification
(`isHealthy`: exact status 200), and the Rule Controller's observable
outcome for a requested toggle. -/
def handleScheduledCycle (cfg : ValidatedConfig) (now : Int) (isHealthy : Bool)
    (controller : Bool → UpdateResult) (s0 : MonitorStateData) : CycleResult :=
  let s1 := updateCronExecutionOp now s0
  let s2 := cleanMaintenanceWindowsOp now s1
  if s2.apiCallsDisabled then { state := s2, calls := [] }
  else
    let maintenanceModeActive := maintenanceActive s2 now
    if isHealthy then
      let newState := incrementRecoveryOp now s2
      if newState.recoveryCount ≥ cfg.recoveryCountThreshold ∧
          s2.redirectRuleEnabled = true then
        if maintenanceModeActive then { state := newState, calls := [] }
        else
          let reason := "Recovery threshold reached (" ++
            toString cfg.recoveryCountThreshold ++ " consecutive successes)"
          match controller false with
          | UpdateResult.success =>
              { state := resetCountersOp
                  (updateRedirectRuleStateOp now false reason newState)
                calls := [false] }
          | UpdateResult.failure =>
              { state := incrementApiErrorsOp newState, calls := [false] }
          | UpdateResult.authFailed =>
              { state := disableApiCallsOp newState, calls := [false] }
      else { state := newState, calls := [] }
    else
      let newState := incrementFailureOp now s2
      if newState.failureCount ≥ cfg.failureCountThreshold ∧
          s2.redirectRuleEnabled = false then
        if maintenanceModeActive then { state := newState, calls := [] }
        else
          let reason := "Failure threshold reached (" ++
            toString cfg.failureCountThreshold ++ " consecutive failures)"
          match controller true with
          | UpdateResult.success =>
              { state := resetCountersOp
                  (updateRedirectRuleStateOp now true reason newState)
                calls := [true] }
          | UpdateResult.failure =>
              { state := incrementApiErrorsOp newState, calls := [true] }
          | UpdateResult.authFailed =>
              { state := disableApiCallsOp newState, calls := [true] }
      else { state := newState, calls := [] }

/-- Iterate scheduled cycles over a list of `(now, isHealthy)` probe
outcomes, accumulating every Rule Controller invocation in order. -/
def runCycles (cfg : ValidatedConfig) (controller : Bool → UpdateResult) :
    List (Int × Bool) → MonitorStateData → MonitorStateData × List Bool
  | [], s => (s, [])
  | (now, healthy) :: rest, s =>
      let r := handleScheduledCycle cfg now healthy controller s
      let (s', calls) := runCycles cfg controller rest r.state
      (s', r.calls ++ calls)

/-- One rule of the fetched ruleset (`data.result.rules`); `expression`
stands for the fields other than `enabled` carried along by the spread. -/
structure CFRule where
  id : String
  enabled : Bool
  expression : String
  deriving Repr, DecidableEq

/-- The PUT body built by `updateRedirectRule`
(`src/cloudflare-api.ts`): `rulesetData.result.rules.map(rule =>
(...rule, enabled))` — every rule of the fetched collection gets the
requested `enabled` value. -/
def buildRulesUpdateBody (rules : List CFRule) (enabled : Bool) : List CFRule :=
  rules.map fun r => { r with enabled := enabled }

/-- What the spec's words describe for `setRuleEnabled`: only the target
rule's `enabled` flag is overwritten; every other rule is re-submitted
unchanged.  Written to be compared against `buildRulesUpdateBody`. -/
def specRulesUpdateBody (rules : List CFRule) (targetId : String)
    (enabled : Bool) : List CFRule :=
  rules.map fun r => if r.id = targetId then { r with enabled := enabled } else r

/-- `Response.ok` in JS: status in the 200..299 range. -/
def isOkStatus (code : Int) : Bool :=
  decide (200 ≤ code) && decide (code ≤ 299)

/-- Observable behaviour of the two `fetch` calls of one retry attempt:
the GET's HTTP status (`none` = transport error), the rules the GET
returned, and the PUT's HTTP status (`none` = transport error). -/
structure AttemptEnv where
  getStatus : Option Int
  rules : List CFRule
  putStatus : Option Int
  deriving Repr

/-- How one attempt of `updateRedirectRule` ends: return `true`; throw
`AUTHENTICATION_FAILED`; or throw a transient error (HTTP ... message or a
transport failure), which the loop retries. -/
inductive AttemptResult where
  | ok
  | authFailed
  | transientError
  deriving Repr, DecidableEq

/-- One attempt of `updateRedirectRule`: GET the ruleset, then PUT the
modified ruleset; a non-ok status of 401 or 403 at either step raises
`AUTHENTICATION_FAILED`, any other non-ok status or transport error is
transient. -/
def runAttempt (env : AttemptEnv) : AttemptResult :=
  match env.getStatus with
  | none => AttemptResult.transientError
  | some st =>
    if isOkStatus st then
      match env.putStatus with
      | none => AttemptResult.transientError
      | some st2 =>
        if isOkStatus st2 then AttemptResult.ok
        else if st2 = 401 ∨ st2 = 403 then AttemptResult.authFailed
        else AttemptResult.transientError
    else if st = 401 ∨ st = 403 then AttemptResult.authFailed
    else AttemptResult.transientError

/-- `Math.pow(2, attempt - 1) * 1000`: the backoff slept after a failed
attempt. -/
def backoffMs (attempt : Nat) : Int :=
  2 ^ (attempt - 1) * 1000

/-- Observable run of one `updateRedirectRule` call: its outcome, how many
attempts actually executed, and the backoff delays performed in order. -/
structure UpdateRun where
  outcome : UpdateResult
  attemptsMade : Nat
  delays : List Int
  deriving Repr, DecidableEq

/-- `updateRedirectRule`'s `for (attempt = 1; attempt <= 3; attempt++)`
loop, unrolled over its three iterations: success returns immediately,
`AUTHENTICATION_FAILED` is re-thrown immediately, a transient error sleeps
`backoffMs attempt` when `attempt < 3` and retries; exhaustion returns
`false`. -/
def updateRedirectRuleRun (envs : Nat → AttemptEnv) : UpdateRun :=
  match runAttempt (envs 1) with
  | AttemptResult.ok => { outcome := UpdateResult.success, attemptsMade := 1, delays := [] }
  | AttemptResult.authFailed =>
      { outcome := UpdateResult.authFailed, attemptsMade := 1, delays := [] }
  | AttemptResult.transientError =>
    match runAttempt (envs 2) with
    | AttemptResult.ok =>
        { outcome := UpdateResult.success, attemptsMade := 2, delays := [backoffMs 1] }
    | AttemptResult.authFailed =>
        { outcome := UpdateResult.authFailed, attemptsMade := 2, delays := [backoffMs 1] }
    | AttemptResult.transientError =>
      match runAttempt (envs 3) with
      | AttemptResult.ok =>
          { outcome := UpdateResult.success, attemptsMade := 3
            delays := [backoffMs 1, backoffMs 2] }
      | AttemptResult.authFailed =>
          { outcome := UpdateResult.authFailed, attemptsMade := 3
            delays := [backoffMs 1, backoffMs 2] }
      | AttemptResult.transientError =>
          { outcome := UpdateResult.failure, attemptsMade := 3
            delays := [backoffMs 1, backoffMs 2] }

/-- An attempt whose GET or PUT observes an HTTP 401 or 403 response. -/
def observesAuthStatus (env : AttemptEnv) : Prop :=
  (env.getStatus = some 401 ∨ env.getStatus = some 403) ∨
    ((∃ st, env.getStatus = some st ∧ isOkStatus st = true) ∧
      (env.putStatus = some 401 ∨ env.putStatus = some 403))

/-- Result of one inbound simulate-failover / simulate-recovery request:
the committed state, the Rule Controller invocations issued, and the HTTP
status returned to the client. -/
structure HandlerResult where
  state : MonitorStateData
  calls : List Bool
  httpStatus : Int
  deriving Repr, DecidableEq

/-- The `POST /simulate-failover` handler (`src/openapi-routes.ts`):
force the failure counter to the configured threshold, then
unconditionally call `updateRedirectRule(ruleId, true)`; on success record
the transition and reset counters, on `false` count an API error, on a
thrown error answer 500. -/
def simulateFailoverHandler (cfg : ValidatedConfig) (now : Int)
    (controller : Bool → UpdateResult) (s : MonitorStateData) : HandlerResult :=
  let s1 := simulateFailoverOp cfg.failureCountThreshold s
  match controller true with
  | UpdateResult.success =>
      let s2 := updateRedirectRuleStateOp now true
        "Simulated failover - manually triggered via API" s1
      { state := resetCountersOp s2, calls := [true], httpStatus := 200 }
  | UpdateResult.failure =>
      { state := incrementApiErrorsOp s1, calls := [true], httpStatus := 500 }
  | UpdateResult.authFailed =>
      { state := s1, calls := [true], httpStatus := 500 }

/-- The `POST /simulate-recovery` handler (`src/openapi-routes.ts`):
force the recovery counter to the configured threshold, then
unconditionally call `updateRedirectRule(ruleId, false)`; outcome handling
mirrors simulate-failover. -/
def simulateRecoveryHandler (cfg : ValidatedConfig) (now : Int)
    (controller : Bool → UpdateResult) (s : MonitorStateData) : HandlerResult :=
  let s1 := simulateRecoveryOp cfg.recoveryCountThreshold s
  match controller false with
  | UpdateResult.success =>
      let s2 := updateRedirectRuleStateOp now false
        "Simulated recovery - manually triggered via API" s1
      { state := resetCountersOp s2, calls := [false], httpStatus := 200 }
  | UpdateResult.failure =>
      { state := incrementApiErrorsOp s1, calls := [false], httpStatus := 500 }
  | UpdateResult.authFailed =>
      { state := s1, calls := [false], httpStatus := 500 }

/-- A representative validated configuration used for concrete scenarios;
thresholds are the two arguments. -/
def testConfig (ft rt : Int) : ValidatedConfig :=
  { monitorUrl := "https://example.com"
    failureCountThreshold := ft
    recoveryCountThreshold := rt
    timeoutSeconds := 10
    redirectRuleId := "rule-1"
    accountId := "acct-1"
    zoneId := "zone-1"
    cloudflareApiToken := "cf-token"
    logLevel := "info"
    apiToken := "api-token" }

/-- The Rule Controller outcome used in scenarios where every toggle
succeeds. -/
def successController : Bool → UpdateResult := fun _ => UpdateResult.success

/-- C2: every state reachable through the Consistency Store's operations
satisfies `failureCount = 0 ∨ recoveryCount = 0` — recording a failure
zeroes the recovery counter and vice versa, so the two consecutive
counters are never both positive. -/
theorem counters_mutually_exclusive (s : MonitorStateData) (h : Reachable s) :
    s.failureCount = 0 ∨ s.recoveryCount = 0 := by
  induction h with
  | init t0 => exact Or.inl rfl
  | step op h ih =>
      cases op <;>
        first
          | exact Or.inr rfl
          | exact Or.inl rfl
          | exact ih

/-- Witness for C2: the invariant holds at the concrete reachable state
obtained by one increment-failure on the fresh state. -/
theorem counters_mutually_exclusive_witness :
    (applyOp (DOOp.incrementFailure 5) (defaultState 0)).failureCount = 0 ∨
      (applyOp (DOOp.incrementFailure 5) (defaultState 0)).recoveryCount = 0 :=
  counters_mutually_exclusive _
    (Reachable.step (DOOp.incrementFailure 5) (Reachable.init 0))

/-- C1: with failure threshold 3, from the fresh state and a succeeding
Rule Controller, three consecutive Unhealthy cycles fire exactly one
enable call, in the 3rd cycle — not after the 2nd, and not again on a 4th
Unhealthy cycle; the `>=` comparison makes a counter equal to the
threshold trigger.  Stated for arbitrary cycle times and recovery
threshold. -/
theorem failover_threshold_edge (rt t0 t1 t2 t3 t4 : Int) :
    (runCycles (testConfig 3 rt) successController
        [(t1, false), (t2, false)] (defaultState t0)).2 = [] ∧
      (runCycles (testConfig 3 rt) successController
        [(t1, false), (t2, false), (t3, false)] (defaultState t0)).2 = [true] ∧
      (runCycles (testConfig 3 rt) successController
        [(t1, false), (t2, false), (t3, false), (t4, false)]
        (defaultState t0)).2 = [true] := by
  refine ⟨?_, ?_, ?_⟩ <;>
    simp +decide [runCycles, handleScheduledCycle, testConfig, successController,
      defaultState, updateCronExecutionOp, cleanMaintenanceWindowsOp,
      maintenanceActive, isInMaintenanceWindow, incrementFailureOp,
      incrementRecoveryOp, resetCountersOp, updateRedirectRuleStateOp,
      incrementApiErrorsOp, disableApiCallsOp]

/-- An attempt whose GET fails with a transient HTTP 500. -/
def transientEnv : AttemptEnv :=
  { getStatus := some 500, rules := [], putStatus := none }

/-- An attempt whose GET and PUT both succeed. -/
def okEnv : AttemptEnv :=
  { getStatus := some 200, rules := [], putStatus := some 200 }

/-- An attempt whose GET is answered with HTTP 401. -/
def authEnv : AttemptEnv :=
  { getStatus := some 401, rules := [], putStatus := none }

/-- C6: `updateRedirectRule` makes at most 3 attempts; after exhausting all
3 with transient errors it returns Failure with exactly the two backoff
delays 1s then 2s (none after the final attempt); if the 3rd attempt
succeeds it returns Success after exactly those 2 delays. -/
theorem update_retry_policy :
    (∀ envs : Nat → AttemptEnv, (updateRedirectRuleRun envs).attemptsMade ≤ 3) ∧
      (∀ envs : Nat → AttemptEnv,
        runAttempt (envs 1) = AttemptResult.transientError →
        runAttempt (envs 2) = AttemptResult.transientError →
        runAttempt (envs 3) = AttemptResult.transientError →
        updateRedirectRuleRun envs =
          { outcome := UpdateResult.failure, attemptsMade := 3
            delays := [1000, 2000] }) ∧
      (∀ envs : Nat → AttemptEnv,
        runAttempt (envs 1) = AttemptResult.transientError →
        runAttempt (envs 2) = AttemptResult.transientError →
        runAttempt (envs 3) = AttemptResult.ok →
        updateRedirectRuleRun envs =
          { outcome := UpdateResult.success, attemptsMade := 3
            delays := [1000, 2000] }) := by
  refine ⟨?_, ?_, ?_⟩
  · intro envs
    cases h1 : runAttempt (envs 1) <;>
      cases h2 : runAttempt (envs 2) <;>
        cases h3 : runAttempt (envs 3) <;>
          simp +decide [updateRedirectRuleRun, h1, h2, h3]
  · intro envs h1 h2 h3
    simp +decide [updateRedirectRuleRun, h1, h2, h3, backoffMs]
  · intro envs h1 h2 h3
    simp +decide [updateRedirectRuleRun, h1, h2, h3, backoffMs]

/-- Witness for C6: two transient attempts then a success yields Success
after delays of 1s and 2s. -/
theorem update_retry_policy_witness :
    updateRedirectRuleRun (fun n => if n = 3 then okEnv else transientEnv) =
      { outcome := UpdateResult.success, attemptsMade := 3
        delays := [1000, 2000] } :=
  update_retry_policy.2.2 (fun n => if n = 3 then okEnv else transientEnv)
    (by decide) (by decide) (by decide)

/-- C5: an HTTP 401 or 403 at any attempt (GET or PUT) yields the distinct
`AUTHENTICATION_FAILED` outcome, aborts every remaining attempt, and the
Decision Engine then latches `apiCallsDisabled` without touching the
API-error total. -/
theorem auth_failure_short_circuits :
    (∀ env : AttemptEnv,
      observesAuthStatus env → runAttempt env = AttemptResult.authFailed) ∧
      (∀ envs : Nat → AttemptEnv,
        runAttempt (envs 1) = AttemptResult.authFailed →
        updateRedirectRuleRun envs =
          { outcome := UpdateResult.authFailed, attemptsMade := 1, delays := [] }) ∧
      (∀ envs : Nat → AttemptEnv,
        runAttempt (envs 1) = AttemptResult.transientError →
        runAttempt (envs 2) = AttemptResult.authFailed →
        updateRedirectRuleRun envs =
          { outcome := UpdateResult.authFailed, attemptsMade := 2
            delays := [1000] }) ∧
      (∀ envs : Nat → AttemptEnv,
        runAttempt (envs 1) = AttemptResult.transientError →
        runAttempt (envs 2) = AttemptResult.transientError →
        runAttempt (envs 3) = AttemptResult.authFailed →
        updateRedirectRuleRun envs =
          { outcome := UpdateResult.authFailed, attemptsMade := 3
            delays := [1000, 2000] }) ∧
      (∀ (cfg : ValidatedConfig) (now : Int) (healthy : Bool)
          (s : MonitorStateData),
        (handleScheduledCycle cfg now healthy
            (fun _ => UpdateResult.authFailed) s).calls ≠ [] →
        (handleScheduledCycle cfg now healthy
              (fun _ => UpdateResult.authFailed) s).state.apiCallsDisabled = true ∧
          (handleScheduledCycle cfg now healthy
              (fun _ => UpdateResult.authFailed) s).state.apiErrorsTotal =
            s.apiErrorsTotal) := by
  refine ⟨?_, ?_, ?_, ?_, ?_⟩
  · intro env h
    rcases h with (h | h) | ⟨⟨st, hst, hok⟩, hp⟩
    · simp +decide [runAttempt, h, isOkStatus]
    · simp +decide [runAttempt, h, isOkStatus]
    · rcases hp with hp | hp <;> simp +decide [runAttempt, hst, hok, hp]
  · intro envs h1
    simp [updateRedirectRuleRun, h1]
  · intro envs h1 h2
    simp +decide [updateRedirectRuleRun, h1, h2, backoffMs]
  · intro envs h1 h2 h3
    simp +decide [updateRedirectRuleRun, h1, h2, h3, backoffMs]
  · intro cfg now healthy s hcalls
    simp only [handleScheduledCycle] at hcalls ⊢
    split_ifs at hcalls ⊢ <;>
      simp_all [disableApiCallsOp, incrementRecoveryOp, incrementFailureOp,
        cleanMaintenanceWindowsOp, updateCronExecutionOp]

/-- Witness for C5: a 401 on the very first GET produces the
`AUTHENTICATION_FAILED` outcome. -/
theorem auth_failure_short_circuits_witness :
    runAttempt authEnv = AttemptResult.authFailed :=
  auth_failure_short_circuits.1 authEnv (Or.inl (Or.inl rfl))

/-- C7: suppression is exactly `maintenanceMode` OR membership of `now` in
some scheduled window's closed interval; while it holds, a cycle (even a
threshold-crossing one) still updates the consecutive counters but issues
zero Rule Controller calls and appends zero history entries. -/
theorem suppression_blocks_side_effects :
    (∀ (s : MonitorStateData) (now : Int),
      maintenanceActive s now = true ↔
        s.maintenanceMode = true ∨
          ∃ w ∈ s.scheduledMaintenanceWindows,
            w.startTime ≤ now ∧ now ≤ w.endTime) ∧
      (∀ (cfg : ValidatedConfig) (now : Int) (healthy : Bool)
          (controller : Bool → UpdateResult) (s : MonitorStateData),
        s.apiCallsDisabled = false →
        maintenanceActive
            (cleanMaintenanceWindowsOp now (updateCronExecutionOp now s)) now =
          true →
        (handleScheduledCycle cfg now healthy controller s).calls = [] ∧
          (handleScheduledCycle cfg now healthy controller s).state.redirectRuleHistory =
            s.redirectRuleHistory ∧
          (handleScheduledCycle cfg now healthy controller s).state.redirectRuleChangesTotal =
            s.redirectRuleChangesTotal ∧
          (healthy = true →
            (handleScheduledCycle cfg now healthy controller s).state.recoveryCount =
                s.recoveryCount + 1 ∧
              (handleScheduledCycle cfg now healthy controller s).state.failureCount = 0) ∧
          (healthy = false →
            (handleScheduledCycle cfg now healthy controller s).state.failureCount =
                s.failureCount + 1 ∧
              (handleScheduledCycle cfg now healthy controller s).state.recoveryCount =
                0)) := by
  constructor
  · intro s now
    simp [maintenanceActive, isInMaintenanceWindow, List.any_eq_true,
      Bool.or_eq_true, Bool.and_eq_true, decide_eq_true_eq]
  · intro cfg now healthy controller s hapi hmaint
    simp [cleanMaintenanceWindowsOp, updateCronExecutionOp, hapi] at hmaint
    cases healthy <;>
      simp [handleScheduledCycle, cleanMaintenanceWindowsOp, updateCronExecutionOp,
        hapi, hmaint, incrementFailureOp, incrementRecoveryOp, ite_self]

/-- A state in maintenance mode whose failure counter sits one short of a
threshold of 3. -/
def maintState : MonitorStateData :=
  setMaintenanceModeOp true (some "migration")
    (simulateFailoverOp 2 (defaultState 0))

/-- Witness for C7: a threshold-crossing Unhealthy cycle under active
maintenance mode issues no Rule Controller call. -/
theorem suppression_blocks_side_effects_witness :
    (handleScheduledCycle (testConfig 3 2) 1 false successController
        maintState).calls = [] :=
  (suppression_blocks_side_effects.2 (testConfig 3 2) 1 false successController
      maintState rfl (by decide)).1

/-- The fresh state after the fail-closed latch has been set. -/
def latchedState : MonitorStateData := disableApiCallsOp (defaultState 0)

/-- C4 (amended): once `apiCallsDisabled` is latched, a scheduled cycle
aborts before probing — its result does not depend on the probe outcome,
it issues no Rule Controller call, and it mutates no counter. -/
theorem api_suspended_latch (cfg : ValidatedConfig) (now : Int)
    (h1 h2 : Bool) (controller : Bool → UpdateResult) (s : MonitorStateData)
    (h : s.apiCallsDisabled = true) :
    handleScheduledCycle cfg now h1 controller s =
        handleScheduledCycle cfg now h2 controller s ∧
      (handleScheduledCycle cfg now h1 controller s).calls = [] ∧
      (handleScheduledCycle cfg now h1 controller s).state.failureCount =
        s.failureCount ∧
      (handleScheduledCycle cfg now h1 controller s).state.recoveryCount =
        s.recoveryCount ∧
      (handleScheduledCycle cfg now h1 controller s).state.healthChecksTotal =
        s.healthChecksTotal := by
  simp [handleScheduledCycle, cleanMaintenanceWindowsOp, updateCronExecutionOp, h]

/-- Witness for C4: the latched fresh state satisfies the latch hypothesis
and its next cycle issues no Rule Controller call. -/
theorem api_suspended_latch_witness :
    latchedState.apiCallsDisabled = true ∧
      (handleScheduledCycle (testConfig 3 2) 1 true successController
          latchedState).calls = [] :=
  ⟨rfl,
    (api_suspended_latch (testConfig 3 2) 1 true false successController
        latchedState rfl).2.1⟩

/-- C4 counterexample: with the latch set, the POST /simulate-failover
handler still invokes the Rule Controller toggle — the latch does not stop
every rule-toggle path. -/
theorem simulate_failover_ignores_latch :
    latchedState.apiCallsDisabled = true ∧
      (simulateFailoverHandler (testConfig 3 2) 1 successController
          latchedState).calls = [true] :=
  ⟨rfl, rfl⟩

/-- C10: the simulate-failover and simulate-recovery handlers invoke the
Rule Controller toggle on every invocation, for every state — in
particular they never consult `maintenanceMode` or the scheduled windows. -/
theorem simulate_endpoints_toggle_unconditionally (cfg : ValidatedConfig)
    (now : Int) (controller : Bool → UpdateResult) (s : MonitorStateData) :
    (simulateFailoverHandler cfg now controller s).calls = [true] ∧
      (simulateRecoveryHandler cfg now controller s).calls = [false] := by
  refine ⟨?_, ?_⟩
  · cases h : controller true <;> simp [simulateFailoverHandler, h]
  · cases h : controller false <;> simp [simulateRecoveryHandler, h]

/-- C3: with failure threshold 1, an Unhealthy cycle from the fresh state
toggles the rule, and the engine's ensuing `resetCounters` wipes every
cumulative total: immediately after a recorded rule change the change
total is 0, and immediately after a performed health check the check and
failure totals are 0. -/
theorem reset_counters_wipes_totals :
    (handleScheduledCycle (testConfig 1 2) 7 false successController
          (defaultState 0)).calls = [true] ∧
      (handleScheduledCycle (testConfig 1 2) 7 false successController
          (defaultState 0)).state.redirectRuleHistory.length = 1 ∧
      (handleScheduledCycle (testConfig 1 2) 7 false successController
          (defaultState 0)).state.redirectRuleChangesTotal = 0 ∧
      (handleScheduledCycle (testConfig 1 2) 7 false successController
          (defaultState 0)).state.healthChecksTotal = 0 ∧
      (handleScheduledCycle (testConfig 1 2) 7 false successController
          (defaultState 0)).state.failuresTotal = 0 := by
  refine ⟨rfl, rfl, rfl, rfl, rfl⟩

/-- A rule of the fetched collection whose flag the caller asked to set. -/
def cfRuleTarget : CFRule :=
  { id := "rule-1", enabled := false, expression := "e1" }

/-- An unrelated enabled rule in the same fetched collection. -/
def cfRuleOther : CFRule :=
  { id := "other", enabled := true, expression := "e2" }

/-- C8 counterexample: asking to disable the target rule re-submits the
unrelated rule with its flag changed from true to false — the built body
differs from the spec-described body that preserves other rules. -/
theorem update_body_changes_other_rules :
    buildRulesUpdateBody [cfRuleTarget, cfRuleOther] false ≠
        specRulesUpdateBody [cfRuleTarget, cfRuleOther] cfRuleTarget.id false ∧
      (buildRulesUpdateBody [cfRuleTarget, cfRuleOther] false).map CFRule.enabled =
        [false, false] ∧
      cfRuleOther.enabled = true := by
  refine ⟨by decide, rfl, rfl⟩

/-- C8 (amended): the re-submitted collection overwrites EVERY rule's
enabled flag with the requested value, preserving ids, the other fields
and the order. -/
theorem update_body_overwrites_all_rules (rules : List CFRule) (enabled : Bool) :
    (∀ r ∈ buildRulesUpdateBody rules enabled, r.enabled = enabled) ∧
      (buildRulesUpdateBody rules enabled).map CFRule.id = rules.map CFRule.id ∧
      (buildRulesUpdateBody rules enabled).map CFRule.expression =
        rules.map CFRule.expression := by
  refine ⟨?_, ?_, ?_⟩
  · intro r hr
    simp only [buildRulesUpdateBody, List.mem_map] at hr
    obtain ⟨a, _, rfl⟩ := hr
    rfl
  · simp [buildRulesUpdateBody, List.map_map, Function.comp]
  · simp [buildRulesUpdateBody, List.map_map, Function.comp]

/-- Witness for C8 (amended): in the concrete two-rule collection the
re-submitted unrelated rule carries the requested flag. -/
theorem update_body_overwrites_all_rules_witness :
    ({ cfRuleOther with enabled := false } : CFRule).enabled = false :=
  (update_body_overwrites_all_rules [cfRuleTarget, cfRuleOther] false).1
    { cfRuleOther with enabled := false } (by decide)

/-- C9: the Durable Object's fetch dispatcher has no branch for the
reset-all-metrics request that `StateManager.resetAllMetrics` issues — it
falls through to 404 Not Found for every state and body — while the
reset-counters request next to it is handled. -/
theorem reset_all_metrics_not_routed (body : DOBody) (now : Int)
    (s : MonitorStateData) :
    monitorStateFetch "POST" resetAllMetricsPath body now s =
        DOResponse.notFound ∧
      monitorStateFetch "POST" "/reset-counters" body now s =
        DOResponse.ok (resetCountersOp s) := by
  exact ⟨rfl, rfl⟩

end Failover
